import Mathlib

/-!
Verification of the orchestrator core of the Auto-DataScientist system
(`services/orchestrator/src/main.py` and the agent nodes under
`services/orchestrator/src/agents/`).

The Python code is shallowly embedded: the workflow record (`AgentState`,
`libs/core/state.py`) becomes a Lean structure, the in-memory dict
`workflows` becomes an association list, each FastAPI handler becomes a
function `Store → ... → Resp × Store` modelling its synchronous body,
and each background task / agent node becomes a function parameterised
by an environment record carrying the outcomes of its external calls
(LLM responses, HTTP statuses, executor logs), which the orchestrator
treats as opaque.  Python string operations are re-implemented with
structural (fuel-based) recursion so that every definition evaluates
inside the kernel.
-/

namespace AutoDS

/-! ## Python-style string primitives -/

/-- Whitespace test matching Python `str.strip()`'s default char class
(the subset that occurs in this code base). -/
def isWs (c : Char) : Bool := c = ' ' || c = '\t' || c = '\n' || c = '\r'

/-- Python `s.strip()`. -/
def pyStrip (s : String) : String :=
  ⟨((s.data.dropWhile isWs).reverse.dropWhile isWs).reverse⟩

/-- Python `s.strip(c)` for a single strip character. -/
def pyStripChar (c : Char) (s : String) : String :=
  ⟨((s.data.dropWhile (· = c)).reverse.dropWhile (· = c)).reverse⟩

/-- `subList pat l` decides Python `pat in l` (contiguous-substring test). -/
def subList (pat : List Char) : List Char → Bool
  | [] => pat.isPrefixOf []
  | c :: rest => pat.isPrefixOf (c :: rest) || subList pat rest

/-- Python `pat in hay` on strings. -/
def hasSubstr (hay pat : String) : Bool := subList pat.data hay.data

/-- Python `s.startswith(p)`. -/
def pyStartsWith (s p : String) : Bool := p.data.isPrefixOf s.data

/-- Index (in chars) of the first occurrence of `pat`, Python `s.index(pat)`
(restricted to the guarded uses in the source, where `pat` is present). -/
def subIdx (pat : List Char) : List Char → Option Nat
  | [] => if pat.isPrefixOf [] then some 0 else none
  | c :: rest =>
    if pat.isPrefixOf (c :: rest) then some 0
    else (subIdx pat rest).map (· + 1)

/-- Fuel-based worker for Python `str.replace` (replace all occurrences). -/
def pyReplaceAux (a b : List Char) : Nat → List Char → List Char
  | 0, l => l
  | _ + 1, [] => []
  | fuel + 1, c :: rest =>
    if a.isPrefixOf (c :: rest) ∧ a ≠ [] then
      b ++ pyReplaceAux a b fuel ((c :: rest).drop a.length)
    else
      c :: pyReplaceAux a b fuel rest

/-- Python `s.replace(a, b)`. -/
def pyReplace (s a b : String) : String :=
  ⟨pyReplaceAux a.data b.data s.data.length s.data⟩

/-- Fuel-based worker for Python `str.split(sep)` with a non-empty separator. -/
def pySplitAux (sep : List Char) : Nat → List Char → List Char → List (List Char)
  | 0, l, acc => [acc.reverse ++ l]
  | _ + 1, [], acc => [acc.reverse]
  | fuel + 1, c :: rest, acc =>
    if sep.isPrefixOf (c :: rest) ∧ sep ≠ [] then
      acc.reverse :: pySplitAux sep fuel ((c :: rest).drop sep.length) []
    else
      pySplitAux sep fuel rest (c :: acc)

/-- Python `s.split(sep)` (non-empty separator). -/
def pySplit (s sep : String) : List String :=
  (pySplitAux sep.data s.data.length s.data []).map String.mk

/-- Python `len(s)` (number of characters). -/
def pyLen (s : String) : Nat := s.data.length

/-- Python `s.lower()`. -/
def pyLower (s : String) : String := ⟨s.data.map Char.toLower⟩

/-- Python `s[:n]`. -/
def pyTake (s : String) (n : Nat) : String := ⟨s.data.take n⟩

/-- The apostrophe character, used by Python `repr` of strings. -/
def squote : String := ⟨[Char.ofNat 39]⟩

/-- Python `repr` of a plain string (as produced inside `str(list)`). -/
def pyRepr (s : String) : String := squote ++ s ++ squote

/-- Python `str(xs)` for a list of strings, e.g. `str(["age","bmi"])`. -/
def pyStrList (xs : List String) : String :=
  "[" ++ String.intercalate ", " (xs.map pyRepr) ++ "]"

/-! ## Data model (`libs/core/state.py` plus the dynamically added keys) -/

/-- `ApprovalStatus` enum. -/
inductive ApprovalStatus where
  | pending
  | approved
  | rejected
deriving DecidableEq, Repr

/-- One entry of `state["messages"]`. -/
structure Message where
  role : String
  content : String
deriving DecidableEq, Repr

/-- `DatasetInfo`; `schema`, `data_preview`, `source_type` and
`kaggle_handle` are keys the Python code adds to the dict at runtime,
modelled as fields that start out empty. -/
structure DatasetInfo where
  url : String
  file_path : String
  is_public : Bool
  description : String
  schema : String := ""
  data_preview : String := ""
  source_type : String := ""
  kaggle_handle : String := ""
deriving DecidableEq, Repr

/-- `CodeContext`. -/
structure CodeContext where
  eda_code : String
  model_code : String
  file_name : String
deriving DecidableEq, Repr

/-- `ResearchPaper`. -/
structure ResearchPaper where
  title : String
  url : String
  summary : String
  source : String
deriving DecidableEq, Repr

/-- `ResearchData`. -/
structure ResearchData where
  queries : List String
  dataset_name : String
  dataset_url : String
  source_type : String
  papers : List ResearchPaper
deriving DecidableEq, Repr

/-- `AgentState`; `combined_code` and `execution_logs` are keys added
dynamically by `main.py`, modelled as fields that start out empty. -/
structure AgentState where
  messages : List Message
  user_goal : String
  dataset_info : DatasetInfo
  research_plan : List String
  code_context : CodeContext
  review_feedback : List String
  human_approval : ApprovalStatus
  next_step : String
  rejected_urls : List String
  research_data : ResearchData
  combined_code : String := ""
  execution_logs : String := ""
deriving DecidableEq, Repr

/-! ## The in-memory store `workflows : Dict[str, AgentState]` -/

/-- The global `workflows` dict, as an association list keyed by id. -/
abbrev Store := List (String × AgentState)

/-- Dict write `workflows[id] = st` (replace in place or append). -/
def storeSet : Store → String → AgentState → Store
  | [], id, st => [(id, st)]
  | (k, v) :: rest, id, st =>
    if k = id then (id, st) :: rest else (k, v) :: storeSet rest id st

/-- Dict delete `del workflows[id]`. -/
def storeErase : Store → String → Store
  | [], _ => []
  | (k, v) :: rest, id =>
    if k = id then rest else (k, v) :: storeErase rest id

/-! ## External-call outcomes

Each agent node and driver loop performs blocking external calls (LLM,
HTTP probe, browser executor, message relay).  Their outcomes are
supplied through environment records; the Lean functions reproduce the
Python control flow around them. -/

/-- Outcome of one `POST http://localhost:8001/execute` call. -/
inductive ExecOutcome where
  | ok (logs : String)
  | httpErr (code : Nat)
  | connectError
  | otherExn (msg : String)
deriving Repr

/-- Whether a `try:` block around an agent-node call raised
(`except Exception` in the caller). -/
inductive CallOutcome (α : Type) where
  | raised
  | ran (a : α)

/-! ## Critic agent (`agents/critic.py`, `critic_node`) -/

/-- External calls made by `critic_node`: the stage-1 HTTP status probe
(final status after the HEAD/GET sequence, or the exception message)
and the stage-2 browser execution. -/
structure CriticEnv where
  httpCheck : Except String Nat
  browserExec : ExecOutcome
deriving Repr

/-- `critic_node` (2-stage URL validation).  The generated validation
code is only sent to the executor, whose outcome `env.browserExec`
supplies; the unreachable `except` around the Kaggle-handle split is
omitted (`str.split` is total). -/
def critic_node (env : CriticEnv) (state : AgentState) : AgentState :=
  let dataset_url := state.dataset_info.url
  let state := {state with review_feedback := []}
  if dataset_url = "" ∨ pyLen (pyStrip dataset_url) < 5 then
    {state with review_feedback := state.review_feedback ++ ["critical_error: No URL found"]}
  else
    match env.httpCheck with
    | .error e =>
      {state with
        review_feedback := state.review_feedback ++ ["critical_error: Connection failed"],
        dataset_info := {state.dataset_info with url := ""},
        messages := state.messages ++ [⟨"assistant", "❌ Critic: Connection failed - " ++ e⟩]}
    | .ok status_code =>
      if ¬ (200 ≤ status_code ∧ status_code < 300) then
        {state with
          review_feedback := state.review_feedback ++ ["critical_error: HTTP " ++ toString status_code],
          dataset_info := {state.dataset_info with url := ""},
          messages := state.messages ++
            [⟨"assistant", "❌ Critic: URL failed HTTP check (" ++ toString status_code ++ ")"⟩]}
      else
        let is_kaggle := hasSubstr (pyLower dataset_url) "kaggle.com/datasets"
        let kaggle_handle :=
          if is_kaggle then
            let parts := pySplit dataset_url "/datasets/"
            if parts.length > 1 then
              (pySplit (pyStripChar '/' (parts.getD 1 "")) "?").getD 0 ""
            else ""
          else ""
        match env.browserExec with
        | .httpErr _ =>
          {state with
            review_feedback := state.review_feedback ++ ["critical_error: Browser execution failed"],
            dataset_info := {state.dataset_info with url := ""},
            messages := state.messages ++ [⟨"assistant", "❌ Critic: Browser Agent execution failed"⟩]}
        | .connectError =>
          {state with
            review_feedback := state.review_feedback ++ ["approved"],
            messages := state.messages ++
              [⟨"assistant", "✅ Critic: URL validated (HTTP " ++ toString status_code ++ ", browser unavailable)"⟩]}
        | .otherExn _ =>
          {state with
            review_feedback := state.review_feedback ++ ["approved"],
            messages := state.messages ++
              [⟨"assistant", "✅ Critic: URL validated (HTTP " ++ toString status_code ++ ", browser error)"⟩]}
        | .ok logs =>
          let data_preview :=
            if hasSubstr logs "DATA_PREVIEW_START" ∧ hasSubstr logs "DATA_PREVIEW_END" then
              let start_idx := (subIdx "DATA_PREVIEW_START".data logs.data).getD 0 +
                pyLen "DATA_PREVIEW_START"
              let end_idx := (subIdx "DATA_PREVIEW_END".data logs.data).getD 0
              pyStrip ⟨(logs.data.take end_idx).drop start_idx⟩
            else "No preview available"
          let di := {state.dataset_info with data_preview := data_preview}
          let di :=
            if is_kaggle then {di with source_type := "kaggle", kaggle_handle := kaggle_handle}
            else {di with source_type := "direct"}
          {state with
            dataset_info := di,
            next_step := "waiting_human_approval",
            human_approval := .pending,
            messages := state.messages ++
              [⟨"assistant", "🛑 Critic: Waiting for human verification via UI (HTTP " ++ toString status_code ++ ")"⟩]}

/-! ## Research agent (`agents/research.py`, `research_node`) -/

/-- One organic search result (Serper) or Tavily result dict. -/
structure SearchItem where
  url : String
  title : String := ""
  snippet : String := ""
deriving DecidableEq, Repr

/-- External calls made by `research_node`: the LLM-generated queries
(after the `DATASET_QUERY:`/`ALGORITHM_QUERY:` parse), the Serper and
Tavily searches, the Arxiv fallback and the LLM plan lines (after the
blank/`#` filter, before the `[:4]` truncation).  `fail` models the
outer `except Exception` being reached (all state writes of the `try`
body happen after its last fallible call, so the fallback path sees the
incoming state unchanged). -/
structure ResearchEnv where
  fail : Bool := false
  dataset_query : String := ""
  algorithm_query : String := ""
  serperAvailable : Bool := false
  serperDatasets : Option (List SearchItem) := none
  tavily : Except String (List SearchItem) := .ok []
  serperPapers : Option (List SearchItem) := none
  arxiv : Except String (Option String) := .ok none
  planSteps : List String := []
deriving Repr

/-- Step 1 of `research_node`: the `research_data` dict as first
populated with the parsed queries. -/
def researchRData0 (env : ResearchEnv) : ResearchData :=
  { queries := (if env.dataset_query ≠ "" then [env.dataset_query] else []) ++
      (if env.algorithm_query ≠ "" then [env.algorithm_query] else []),
    dataset_name := "", dataset_url := "", source_type := "", papers := [] }

/-- Step 2a of `research_node`: the Serper dataset search with the
domain filter and the `url not in rejected_urls` exclusion check. -/
def researchSerperSources (env : ResearchEnv) (rejected_urls : List String) :
    List SearchItem :=
  if env.serperAvailable ∧ env.dataset_query ≠ "" then
    match env.serperDatasets with
    | some rs => rs.filter (fun r =>
        (hasSubstr r.url "kaggle.com" || hasSubstr r.url "huggingface.co" ||
          hasSubstr r.url "paperswithcode.com") && ! rejected_urls.contains r.url)
    | none => []
  else []

/-- The `dataset_sources` accumulated by a successful Tavily search:
the Serper results plus the exclusion-filtered Tavily results,
reordered Kaggle-first. -/
def researchTavilySources (env : ResearchEnv) (rejected_urls : List String)
    (results : List SearchItem) : List SearchItem :=
  let tavilyFiltered := (results.filter
      (fun r => (r.url != "") && ! rejected_urls.contains r.url)).map
    (fun r => { url := r.url, snippet := pyTake r.snippet 200 : SearchItem })
  let sources0 := researchSerperSources env rejected_urls ++ tavilyFiltered
  sources0.filter (fun s => hasSubstr (pyLower s.url) "kaggle.com") ++
    sources0.filter (fun s => ¬ hasSubstr (pyLower s.url) "kaggle.com")

/-- Step 2b of `research_node`: the Tavily block (always entered after
the Serper attempt), with its own exclusion filter, Kaggle-first
reordering and `research_data` capture.  Returns the accumulated
`dataset_sources`, the chosen `dataset_url` and the updated
`research_data`.  On a Tavily exception, `dataset_sources` is reset to
`[]` but the Serper-chosen URL survives. -/
def researchAfterTavily (env : ResearchEnv) (rejected_urls : List String) :
    List SearchItem × String × ResearchData :=
  let rdata0 := researchRData0 env
  let serperSources := researchSerperSources env rejected_urls
  let datasetUrl1 := match serperSources.head? with | some s => s.url | none => ""
  match env.tavily with
  | .error _ => ([], datasetUrl1, rdata0)
  | .ok results =>
    if env.dataset_query ≠ "" ∧ results ≠ [] then
      let sources := researchTavilySources env rejected_urls results
      match sources.head? with
      | some s0 =>
        let durl := s0.url
        let rd := {rdata0 with dataset_url := durl}
        let rd :=
          if hasSubstr durl "kaggle.com" then
            let allParts := pySplit durl "/"
            let parts := allParts.drop (allParts.length - 2)
            if parts.length = 2 then
              {rd with source_type := "kaggle",
                       dataset_name := parts.getD 0 "" ++ "/" ++ parts.getD 1 ""}
            else
              {rd with source_type := "kaggle", dataset_name := allParts.getLastD ""}
          else
            {rd with source_type := "direct",
                     dataset_name :=
                       if (pySplit durl "/").getLastD "" ≠ "" then
                         (pySplit durl "/").getLastD ""
                       else "Unknown Dataset"}
        (sources, durl, rd)
      | none => (sources, datasetUrl1, rdata0)
    else (serperSources, datasetUrl1, rdata0)

/-- `research_node`. -/
def research_node (env : ResearchEnv) (state : AgentState) : AgentState :=
  let user_goal := state.user_goal
  let existing_url := state.dataset_info.url
  if existing_url ≠ "" ∧ pyLen (pyStrip existing_url) > 5 then
    {state with
      research_plan :=
        ["1. Use user-provided dataset: " ++ existing_url,
         "2. Load data using Pandas and inspect schema",
         "3. Perform Exploratory Data Analysis (EDA)",
         "4. specific preprocessing and model training for this goal"],
      messages := state.messages ++
        [⟨"assistant", "Research: Using user-provided dataset at " ++ existing_url⟩],
      next_step := "data_engineering_agent"}
  else if env.fail then
    {state with
      research_plan :=
        ["Find dataset for " ++ user_goal,
         "Perform exploratory data analysis",
         "Select appropriate ML algorithm",
         "Train and evaluate model"],
      messages := state.messages ++
        [⟨"assistant", "⚠️ Research completed with limited results. Created basic plan for: " ++ user_goal⟩],
      next_step := "data_engineering_agent"}
  else
    let rejected_urls := state.rejected_urls
    let afterTavily := researchAfterTavily env rejected_urls
    let dataset_sources := afterTavily.1
    let dataset_url := afterTavily.2.1
    let rdMid := afterTavily.2.2
    let papers1 : List ResearchPaper :=
      if env.serperAvailable then
        match env.serperPapers with
        | some rs => rs.filterMap (fun r =>
            if r.url ≠ "" ∧ r.url ≠ "https://arxiv.org" ∧ pyLen r.url > 20 then
              some { title := if r.title ≠ "" then r.title else "Research on " ++ user_goal,
                     url := r.url,
                     summary := if r.snippet ≠ "" then r.snippet else "No summary available",
                     source := if hasSubstr r.url "arxiv.org" then "arxiv"
                       else if hasSubstr (pyLower r.url) ".pdf" then "pdf" else "web" }
            else none)
        | none => []
      else []
    let papers : List ResearchPaper :=
      if papers1 = [] then
        match env.arxiv with
        | .ok (some txt) =>
          [{ title := "Research papers on " ++ user_goal, url := "https://arxiv.org",
             summary := pyTake txt 500, source := "arxiv" }]
        | .ok none => []
        | .error _ => []
      else papers1
    let research_steps := env.planSteps.take 4
    let rdFinal := {rdMid with papers := papers}
    let research_summary :=
      "✅ Research Complete\n\n**Datasets Found:** " ++ toString dataset_sources.length ++ "\n" ++
      (if dataset_url ≠ "" then "- Primary: " ++ dataset_url else "- No public datasets found") ++
      "\n\n**Research Papers:** " ++ toString papers.length ++
      " paper(s) reviewed\n\n**Research Plan:**\n" ++
      String.intercalate "\n"
        ((research_steps.enum).map (fun p => toString (p.1 + 1) ++ ". " ++ p.2)) ++ "\n"
    {state with
      dataset_info := {state.dataset_info with
        url := dataset_url,
        description := "Dataset for " ++ user_goal,
        is_public := true},
      research_plan := research_steps,
      research_data := rdFinal,
      messages := state.messages ++ [⟨"assistant", research_summary⟩],
      next_step := "data_engineering_agent"}

/-! ## Code-generating agents (`data_engineer.py`, `ml_engineer.py`, `debugger.py`)

Each of these calls one LLM; the `Except String String` argument is the
LLM's `response.content` or the exception caught by the node's own
`except Exception` fallback. -/

/-- Shared markdown-fence cleanup applied to LLM code output
(`response.content.strip()` followed by the ```` ``` ````-removal). -/
def cleanLLMCode (raw : String) : String :=
  let code := pyStrip raw
  if pyStartsWith code "```python" then
    pyStrip (pyReplace (pyReplace code "```python" "") "```" "")
  else if pyStartsWith code "```" then
    pyStrip (pyReplace code "```" "")
  else code

/-- The fallback EDA script of `data_engineering_node` (an f-string of
`dataset_url`; `\x27` is the apostrophe, `\\n` a literal backslash-n as
in the Python source). -/
def deFallbackCode (dataset_url : String) : String :=
  "\nimport pandas as pd\nimport matplotlib.pyplot as plt\nimport seaborn as sns\n\n# Load dataset\ntry:\n    df = pd.read_csv(\x27" ++ dataset_url ++
  "\x27)\nexcept:\n    print(\"Failed to load dataset from URL\")\n    df = pd.DataFrame()\n\n# Basic info\nprint(\"Dataset Shape:\", df.shape)\nprint(\"\\nDataset Info:\")\nprint(df.info())\nprint(\"\\nSummary Statistics:\")\nprint(df.describe())\n\n# Handle missing values\nfor col in df.select_dtypes(include=[\x27float64\x27, \x27int64\x27]).columns:\n    df[col].fillna(df[col].mean(), inplace=True)\n\n# Visualizations\nfig, axes = plt.subplots(1, 2, figsize=(12, 5))\ndf.hist(ax=axes[0])\naxes[0].set_title(\x27Feature Distributions\x27)\nsns.heatmap(df.corr(), annot=True, ax=axes[1])\naxes[1].set_title(\x27Correlation Matrix\x27)\nplt.savefig(\x27eda_output.png\x27)\nprint(\"\\nEDA complete!\")\n"

/-- `data_engineering_node`. -/
def data_engineering_node (llm : Except String String) (state : AgentState) : AgentState :=
  let dataset_url := state.dataset_info.url
  match llm with
  | .ok content =>
    let eda_code := cleanLLMCode (pyStrip content)
    let code_preview := if pyLen eda_code > 200 then pyTake eda_code 200 ++ "..." else eda_code
    {state with
      code_context := {state.code_context with eda_code := eda_code, file_name := "eda_analysis.py"},
      messages := state.messages ++
        [⟨"assistant",
          "✅ EDA Code Generated\n\n**Lines of Code:** " ++
          toString (pySplit eda_code "\n").length ++
          "\n**File:** eda_analysis.py\n\n**Preview:**\n```python\n" ++ code_preview ++
          "\n```\n\nReady to execute in Google Colab!\n"⟩],
      next_step := "browser_agent"}
  | .error e =>
    {state with
      code_context := {state.code_context with
        eda_code := pyStrip (deFallbackCode dataset_url),
        file_name := "eda_analysis.py"},
      messages := state.messages ++
        [⟨"assistant", "⚠️ Generated fallback EDA code due to error: " ++ e⟩],
      next_step := "browser_agent"}

/-- The fallback training script of `ml_engineering_node` (`\x7b`/`\x7d`
are the literal braces produced by the doubled braces of the Python
f-string). -/
def mlFallbackCode : String :=
  "\n# ML Training Code (Fallback)\nfrom sklearn.model_selection import train_test_split\nfrom sklearn.ensemble import RandomForestClassifier\nfrom sklearn.metrics import accuracy_score, classification_report\nfrom sklearn.preprocessing import LabelEncoder\n\n# Assume df is loaded from previous code\n# Preprocessing\nle = LabelEncoder()\nfor col in df.select_dtypes(include=[\x27object\x27]).columns:\n    if col != \x27target\x27:  # Adjust \x27target\x27 to your actual target column\n        df[col] = le.fit_transform(df[col].astype(str))\n\n# Split features and target\nX = df.drop(\x27target\x27, axis=1)  # Adjust \x27target\x27 column name\ny = df[\x27target\x27]\n\n# Train/Test split\nX_train, X_test, y_train, y_test = train_test_split(X, y, test_size=0.2, random_state=42)\n\n# Train model\nmodel = RandomForestClassifier(n_estimators=100, random_state=42)\nmodel.fit(X_train, y_train)\n\n# Predictions\ny_pred = model.predict(X_test)\n\n# Metrics\naccuracy = accuracy_score(y_test, y_pred)\nprint(f\"\\nModel Accuracy: \x7baccuracy:.4f\x7d\")\nprint(\"\\nClassification Report:\")\nprint(classification_report(y_test, y_pred))\n\nprint(\"\\nML Training Complete!\")\n"

/-- `ml_engineering_node`. -/
def ml_engineering_node (llm : Except String String) (state : AgentState) : AgentState :=
  match llm with
  | .ok content =>
    let ml_code := cleanLLMCode (pyStrip content)
    let code_preview := if pyLen ml_code > 200 then pyTake ml_code 200 ++ "..." else ml_code
    {state with
      code_context := {state.code_context with model_code := ml_code},
      messages := state.messages ++
        [⟨"assistant",
          "✅ ML Training Code Generated\n\n**Lines of Code:** " ++
          toString (pySplit ml_code "\n").length ++
          "\n**Algorithm:** Intelligent selection based on goal\n\n**Preview:**\n```python\n" ++
          code_preview ++ "\n```\n\nReady for model training!\n"⟩],
      next_step := "critic_agent"}
  | .error e =>
    {state with
      code_context := {state.code_context with model_code := pyStrip mlFallbackCode},
      messages := state.messages ++
        [⟨"assistant", "⚠️ Generated fallback ML code due to error: " ++ e⟩],
      next_step := "critic_agent"}

/-- `debugger_node`. -/
def debugger_node (llm : Except String String) (state : AgentState) : AgentState :=
  let combined_code := state.combined_code
  let execution_logs := state.execution_logs
  if combined_code = "" ∨ pyLen (pyStrip combined_code) < 10 then state
  else if execution_logs = "" ∨ pyLen (pyStrip execution_logs) < 10 then state
  else
    match llm with
    | .ok content =>
      let fixed_code := cleanLLMCode (pyStrip content)
      {state with
        combined_code := fixed_code,
        messages := state.messages ++
          [⟨"assistant",
            "🔧 Debugger: Code automatically fixed\n\n**Original Error:** " ++
            pyTake execution_logs 200 ++
            "...\n**Action:** LLM analyzed traceback and rewrote code\n**New Code Length:** " ++
            toString (pyLen fixed_code) ++ " chars\n"⟩]}
    | .error e =>
      {state with messages := state.messages ++ [⟨"assistant", "⚠️ Debugger failed: " ++ e⟩]}

/-! ## Research + Critic retry loop (`run_workflow_simulation`, lines 124–194)

The `for attempt in range(1, max_retries + 1)` loop is embedded by
structural recursion over the list of remaining attempt numbers
(`[1, 2, 3]`); `attempt == max_retries` corresponds to the tail being
empty.  The result carries how the loop exited, the final state, and the
number of attempts executed.  On the `approvedGo` exit the Python
function goes on to the generation stages (embedded separately below via
the `continue_*` resumption functions, which duplicate that logic). -/

/-- How the research/critic loop of `run_workflow_simulation` exited. -/
inductive Phase1Exit where
  | maxRetriesResearch
  | maxRetriesCritic
  | paused
  | approvedGo
  | noApproval
deriving DecidableEq, Repr

/-- Per-attempt outcomes for the research/critic loop: `raised` models
the `except Exception` around the corresponding node call. -/
structure SimEnv where
  research : Nat → CallOutcome ResearchEnv
  critic : Nat → CallOutcome CriticEnv

/-- The message appended when the loop exhausts without approval. -/
def abortNoDatasetMsg : Message :=
  ⟨"assistant", "❌ Workflow aborted: Could not find a valid dataset URL after multiple attempts."⟩

/-- Worker for the retry loop of `run_workflow_simulation`. -/
def phase1Aux (env : SimEnv) : List Nat → AgentState → Phase1Exit × AgentState × Nat
  | [], state =>
    (.noApproval, {state with messages := state.messages ++ [abortNoDatasetMsg]}, 0)
  | attempt :: rest, state =>
    let st1 := {state with next_step := "research_agent"}
    match env.research attempt with
    | .raised =>
      if rest.isEmpty then (.maxRetriesResearch, st1, 1)
      else
        let r := phase1Aux env rest st1
        (r.1, r.2.1, r.2.2 + 1)
    | .ran renv =>
      let st2 := research_node renv st1
      let st3 := {st2 with next_step := "critic_agent"}
      match env.critic attempt with
      | .raised =>
        if rest.isEmpty then (.maxRetriesCritic, st3, 1)
        else
          let r := phase1Aux env rest st3
          (r.1, r.2.1, r.2.2 + 1)
      | .ran cenv =>
        let st4 := critic_node cenv st3
        let feedback := st4.review_feedback
        if st4.next_step = "waiting_human_approval" then (.paused, st4, 1)
        else if feedback.contains "approved" then (.approvedGo, st4, 1)
        else if feedback.any (fun fb => hasSubstr fb "critical_error") then
          let r := phase1Aux env rest st4
          (r.1, r.2.1, r.2.2 + 1)
        else (.approvedGo, st4, 1)

/-- The research phase of `run_workflow_simulation` (`max_retries = 3`). -/
def run_workflow_simulation_research_phase (env : SimEnv) (state : AgentState) :
    Phase1Exit × AgentState × Nat :=
  phase1Aux env [1, 2, 3] state

/-! ## Self-healing browser-execution loop
(`continue_after_schema_validation`, lines 544–602, duplicated at
lines 283–341 of `run_workflow_simulation`) -/

/-- `error_keywords`. -/
def errorKeywords : List String :=
  ["Traceback", "Error:", "Exception:", "KeyError", "SyntaxError"]

/-- `has_error = any(kw in logs for kw in error_keywords)`. -/
def anySignature (logs : String) : Bool :=
  errorKeywords.any (fun kw => hasSubstr logs kw)

/-- Per-attempt outcomes for the self-healing loop: the executor call
and the debugger's LLM call. -/
structure HealEnv where
  exec : Nat → ExecOutcome
  debugLLM : Nat → Except String String

/-- Worker for the `for debug_attempt in range(1, max_debug_attempts + 1)`
loop; `debug_attempt < max_debug_attempts` corresponds to a non-empty
tail.  Result: final state, `execution_success`, attempts executed. -/
def selfHealAux (env : HealEnv) : List Nat → AgentState → AgentState × Bool × Nat
  | [], state => (state, false, 0)
  | attempt :: rest, state =>
    match env.exec attempt with
    | .ok logs =>
      let st1 := {state with execution_logs := logs}
      let has_error := anySignature logs
      if has_error ∧ ¬ rest.isEmpty then
        let st2 := debugger_node (env.debugLLM attempt) st1
        let r := selfHealAux env rest st2
        (r.1, r.2.1, r.2.2 + 1)
      else if ¬ has_error then (st1, true, 1)
      else (st1, false, 1)
    | .httpErr _ => (state, false, 1)
    | .connectError => (state, false, 1)
    | .otherExn _ => (state, false, 1)

/-- Step 5 of `continue_after_schema_validation`: the bounded
self-healing execution loop followed by the final status assignment
(`waiting_final_approval` on success, `failed` otherwise).  The second
component is the number of execution attempts performed. -/
def browser_execution_loop (env : HealEnv) (state : AgentState) : AgentState × Nat :=
  let st := {state with next_step := "browser_execution"}
  let r := selfHealAux env [1, 2, 3] st
  (if r.2.1 then {r.1 with next_step := "waiting_final_approval"}
   else {r.1 with next_step := "failed"}, r.2.2)

/-- Step 4 of the drivers: the combined-code f-string template. -/
def combineCode (eda_code ml_code : String) : String :=
  "\n# ==========================================\n# AUTO-GENERATED BY AUTO-DATA-SCIENTIST\n# ==========================================\n\n# --- PART 1: EXPLORATORY DATA ANALYSIS ---\n" ++
  eda_code ++ "\n\n# --- PART 2: MACHINE LEARNING TRAINING ---\n" ++ ml_code ++ "\n"

/-- External outcomes of `continue_after_schema_validation`. -/
structure SchemaValEnv where
  mlEng : CallOutcome (Except String String)
  heal : HealEnv

/-- `continue_after_schema_validation` (resumption after the schema
checkpoint): ML engineering, code combination, self-healing execution. -/
def continue_after_schema_validation (env : SchemaValEnv) (store : Store)
    (workflow_id : String) : Store :=
  match store.lookup workflow_id with
  | none => store
  | some state =>
    let state := {state with next_step := "ml_engineering_agent"}
    match env.mlEng with
    | .raised => storeSet store workflow_id {state with next_step := "failed"}
    | .ran llm =>
      let state := ml_engineering_node llm state
      let full_code := combineCode state.code_context.eda_code state.code_context.model_code
      let state := {state with combined_code := full_code}
      let r := browser_execution_loop env.heal state
      storeSet store workflow_id r.1

/-- External outcomes of `continue_workflow_after_approval`: the data
engineer's LLM call, the schema-capture execution (the `except
Exception` around it catches connection errors too), and the ntfy.sh
relay poll (`some s` is the `str(schema_data)` of a retrieved schema,
`none` covers failed requests, missing messages and poll exceptions). -/
structure ApprovalContEnv where
  dataEng : CallOutcome (Except String String)
  schemaExec : ExecOutcome
  ntfyPoll : Option String

/-- `continue_workflow_after_approval` (resumption after the dataset
checkpoint): data engineering, intermediate schema capture with the
log-scan channel, the ntfy.sh fallback channel, then the schema
checkpoint.  The Python membership test
`"schema" not in state["dataset_info"] or not state["dataset_info"]["schema"]`
is `schema = ""` here, since the field starts out `""`. -/
def continueApprovalState (env : ApprovalContEnv) (state : AgentState) : AgentState :=
    let state := {state with next_step := "data_engineering_agent"}
    match env.dataEng with
    | .raised => {state with next_step := "failed"}
    | .ran llm =>
      let state := data_engineering_node llm state
      let state := {state with next_step := "intermediate_schema_capture"}
      let eda_code := state.code_context.eda_code
      let state :=
        if eda_code ≠ "" then
          match env.schemaExec with
          | .ok logs =>
            if hasSubstr logs "DATA_SCHEMA_LOCKED:" then
              let schema_str :=
                (pySplit ((pySplit logs "DATA_SCHEMA_LOCKED:").getD 1 "") "\n").getD 0 ""
              if state.dataset_info.schema = "" then
                {state with dataset_info := {state.dataset_info with schema := schema_str}}
              else state
            else
              if state.dataset_info.schema = "" then
                {state with dataset_info := {state.dataset_info with schema := "Schema not available"}}
              else state
          | .httpErr _ =>
            if state.dataset_info.schema = "" then
              {state with dataset_info := {state.dataset_info with schema := "Schema not available"}}
            else state
          | .connectError =>
            {state with dataset_info := {state.dataset_info with schema := "Schema not available"}}
          | .otherExn _ =>
            {state with dataset_info := {state.dataset_info with schema := "Schema not available"}}
        else
          {state with dataset_info := {state.dataset_info with schema := "Schema not available"}}
      let state :=
        if state.dataset_info.schema = "" ∨ state.dataset_info.schema = "Schema not available" then
          match env.ntfyPoll with
          | some schema_data =>
            {state with dataset_info := {state.dataset_info with schema := schema_data}}
          | none => state
        else state
      {state with next_step := "waiting_schema_approval"}

def continue_workflow_after_approval (env : ApprovalContEnv) (store : Store)
    (workflow_id : String) : Store :=
  match store.lookup workflow_id with
  | none => store
  | some state => storeSet store workflow_id (continueApprovalState env state)

/-- External outcomes of `retry_research_after_rejection`. -/
structure RetryEnv where
  research : CallOutcome ResearchEnv
  critic : CallOutcome CriticEnv
  cont : ApprovalContEnv

/-- `retry_research_after_rejection` (background task scheduled by the
reject endpoint): clears the old dataset info, re-runs research and
critic, and either pauses for HITL again or continues on direct
approval. -/
def retry_research_after_rejection (env : RetryEnv) (store : Store)
    (workflow_id : String) : Store :=
  match store.lookup workflow_id with
  | none => store
  | some state =>
    let state := {state with
      dataset_info := {state.dataset_info with url := "", data_preview := ""},
      review_feedback := [],
      human_approval := .pending}
    let state := {state with next_step := "research_agent"}
    match env.research with
    | .raised => storeSet store workflow_id {state with next_step := "failed"}
    | .ran renv =>
      let state := research_node renv state
      let state := {state with next_step := "critic_agent"}
      match env.critic with
      | .raised => storeSet store workflow_id {state with next_step := "failed"}
      | .ran cenv =>
        let state := critic_node cenv state
        let store := storeSet store workflow_id state
        if state.next_step = "waiting_human_approval" then store
        else if state.review_feedback.contains "approved" then
          continue_workflow_after_approval env.cont store workflow_id
        else store

/-! ## HTTP API endpoints (`main.py`)

Each function is the synchronous body of the FastAPI handler; the
`background_tasks.add_task(...)` continuations are the functions above.
`Resp.code` is the HTTP status, `Resp.status` the `status` field of the
JSON body, `Resp.message` the `message` (or 404 `detail`) field. -/

/-- An HTTP response. -/
structure Resp where
  code : Nat
  status : String := ""
  message : String := ""
deriving DecidableEq, Repr

/-- `initial_state` built by `POST /workflow/start`. -/
def initialState (user_goal dataset_url : String) : AgentState :=
  { messages := []
    user_goal := user_goal
    dataset_info :=
      { url := dataset_url, file_path := "", is_public := true, description := "", schema := "" }
    research_plan := []
    code_context := { eda_code := "", model_code := "", file_name := "" }
    review_feedback := []
    human_approval := .pending
    next_step := "research_agent"
    rejected_urls := []
    research_data :=
      { queries := [], dataset_name := "", dataset_url := "", source_type := "", papers := [] } }

/-- `POST /workflow/start` (the generated uuid is a parameter). -/
def start_workflow (store : Store) (workflow_id user_goal dataset_url : String) : Resp × Store :=
  (⟨200, "started", "Workflow initialized and running"⟩,
   storeSet store workflow_id (initialState user_goal dataset_url))

/-- The JSON body of `GET /workflow/{id}/status`. -/
structure StatusBody where
  workflow_id : String
  status : String
  current_step : String
  user_goal : String
  schema : String
  research_data : ResearchData
deriving DecidableEq, Repr

/-- The status derivation of `get_workflow_status` (`next_step` checks
first, then `approval == REJECTED`, else `"running"`). -/
def deriveStatus (state : AgentState) : String :=
  if state.next_step = "waiting_human_approval" then "waiting_approval"
  else if state.next_step = "waiting_schema_approval" then "waiting_schema_approval"
  else if state.next_step = "waiting_final_approval" then "waiting_final_approval"
  else if state.next_step = "completed" then "completed"
  else if state.next_step = "failed" then "failed"
  else if state.next_step = "aborted" then "aborted"
  else if state.human_approval = .rejected then "failed"
  else "running"

/-- `GET /workflow/{id}/status`: HTTP code, body (absent on 404), store. -/
def get_workflow_status (store : Store) (workflow_id : String) :
    Nat × Option StatusBody × Store :=
  match store.lookup workflow_id with
  | none => (404, none, store)
  | some state =>
    (200,
     some { workflow_id := workflow_id, status := deriveStatus state,
            current_step := state.next_step, user_goal := state.user_goal,
            schema := state.dataset_info.schema, research_data := state.research_data },
     store)

/-- `POST /workflow/{id}/approve` (dataset checkpoint decision). -/
def approve_workflow (store : Store) (workflow_id : String) : Resp × Store :=
  match store.lookup workflow_id with
  | none => (⟨404, "", "Workflow " ++ workflow_id ++ " not found"⟩, store)
  | some state =>
    let state := {state with
      human_approval := .approved,
      review_feedback := state.review_feedback ++ ["approved"],
      next_step := "data_engineering_agent"}
    (⟨200, "approved", "Workflow approved, continuing to Data Engineering"⟩,
     storeSet store workflow_id state)

/-- `POST /workflow/{id}/schema/approve`. -/
def approve_schema (store : Store) (workflow_id : String) : Resp × Store :=
  match store.lookup workflow_id with
  | none => (⟨404, "", "Workflow not found"⟩, store)
  | some state =>
    (⟨200, "approved", "Schema accepted. Starting ML Engineer..."⟩,
     storeSet store workflow_id {state with next_step := "ml_engineering_agent"})

/-- `POST /workflow/{id}/schema/reject`. -/
def reject_schema (store : Store) (workflow_id : String) : Resp × Store :=
  match store.lookup workflow_id with
  | none => (⟨404, "", "Workflow not found"⟩, store)
  | some state =>
    let state := {state with
      next_step := "aborted",
      messages := state.messages ++
        [⟨"system", "❌ Workflow aborted by user due to Schema Verification failure."⟩]}
    (⟨200, "aborted", "Workflow aborted. No tokens spent on ML Agent."⟩,
     storeSet store workflow_id state)

/-- `POST /workflow/{id}/schema/callback` (async schema channel). -/
def receive_schema_callback (store : Store) (workflow_id : String)
    (columns : List String) : Resp × Store :=
  match store.lookup workflow_id with
  | none => (⟨404, "", "Workflow not found"⟩, store)
  | some state =>
    (⟨200, "success", "Schema received"⟩,
     storeSet store workflow_id
       {state with dataset_info := {state.dataset_info with schema := pyStrList columns}})

/-- `POST /workflow/{id}/feedback` (final satisfaction check). -/
def submit_final_feedback (store : Store) (workflow_id : String)
    (satisfied : Bool) (feedback : String) : Resp × Store :=
  match store.lookup workflow_id with
  | none => (⟨404, "", "Workflow " ++ workflow_id ++ " not found"⟩, store)
  | some state =>
    if satisfied then
      (⟨200, "completed", "Workflow marked as completed"⟩,
       storeSet store workflow_id
         {state with next_step := "completed", human_approval := .approved})
    else
      let note := if feedback ≠ "" then feedback else "Results not satisfactory"
      (⟨200, "retrying", "Retrying workflow from Data Engineering phase"⟩,
       storeSet store workflow_id
         {state with
           messages := state.messages ++ [⟨"user", "Feedback: " ++ note⟩],
           next_step := "data_engineering_agent"})

/-- The state mutation performed by the reject handler
(`POST /workflow/{id}/reject`, dataset checkpoint decision): record the
rejected URL in `rejected_urls` (if new and non-empty), set
`human_approval = REJECTED` and re-enter research. -/
def rejectedState (state : AgentState) : AgentState :=
  let rejected_url := state.dataset_info.url
  let state :=
    if rejected_url ≠ "" ∧ ¬ state.rejected_urls.contains rejected_url then
      {state with rejected_urls := state.rejected_urls ++ [rejected_url]}
    else state
  {state with human_approval := .rejected, next_step := "research_agent"}

def reject_workflow (store : Store) (workflow_id : String) : Resp × Store :=
  match store.lookup workflow_id with
  | none => (⟨404, "", "Workflow " ++ workflow_id ++ " not found"⟩, store)
  | some state =>
    (⟨200, "rejected", "Workflow rejected, searching for new dataset..."⟩,
     storeSet store workflow_id (rejectedState state))

/-- `POST /workflow/clear`. -/
def clear_all_workflows (store : Store) : Resp × Store :=
  (⟨200, "cleared", "All workflows cleared"⟩, [])

/-- `DELETE /workflow/{id}` (`message` carries the echoed workflow id of
the success body). -/
def delete_workflow (store : Store) (workflow_id : String) : Resp × Store :=
  match store.lookup workflow_id with
  | some _ => (⟨200, "deleted", workflow_id⟩, storeErase store workflow_id)
  | none => (⟨404, "", "Workflow not found"⟩, store)

/-! ## Concrete fixtures used by witnesses and counterexamples -/

/-- A freshly created workflow (`POST /workflow/start` with an empty
dataset URL). -/
def goalState : AgentState := initialState "predict diabetes risk" ""

/-- A workflow paused at the final satisfaction checkpoint. -/
def wfAtFinal : AgentState :=
  { goalState with
    next_step := "waiting_final_approval",
    human_approval := .approved,
    dataset_info := {goalState.dataset_info with url := "https://example.com/data.csv"} }

/-- A one-workflow store holding `wfAtFinal`. -/
def c1Store : Store := [("wf-c1", wfAtFinal)]

/-- A workflow whose `captured_schema` was already set by the async
callback channel to the real value `str(["age", "bmi"])`. -/
def c2State : AgentState :=
  { goalState with
    next_step := "data_engineering_agent",
    human_approval := .approved,
    dataset_info := {goalState.dataset_info with
      url := "https://example.com/data.csv",
      schema := pyStrList ["age", "bmi"]} }

/-- A one-workflow store holding `c2State`. -/
def c2Store : Store := [("wf-c2", c2State)]

/-- Schema-capture environment whose executor call raises. -/
def c2Env : ApprovalContEnv :=
  { dataEng := .ran (.ok "print(1)"), schemaExec := .otherExn "boom", ntfyPoll := none }

/-- Schema-capture environment whose executor call succeeds but whose
logs carry no `DATA_SCHEMA_LOCKED:` tag. -/
def c2wEnv : ApprovalContEnv :=
  { dataEng := .ran (.ok "print(1)"), schemaExec := .ok "plain logs", ntfyPoll := none }

/-- Research environment whose searches find nothing (no Serper key,
empty Tavily result, no papers, no plan lines). -/
def emptyResearchEnv : ResearchEnv := {}

/-- A critic environment whose stage-1 HTTP probe raises. -/
def connFailCriticEnv : CriticEnv := ⟨.error "Connection refused", .connectError⟩

/-- Driver environment for the retry loop in which research always runs
(finding nothing) and the critic's HTTP probe always raises, so every
attempt ends in a `critical_error`. -/
def c3Env : SimEnv :=
  { research := fun _ => .ran emptyResearchEnv,
    critic := fun _ => .ran connFailCriticEnv }

/-- Heal environment in which every execution attempt captures output
with a failure signature. -/
def c4FailEnv : HealEnv :=
  { exec := fun _ => .ok "Traceback (most recent call last): KeyError",
    debugLLM := fun _ => .ok "print(2)" }

/-- Heal environment whose first attempt captures a failure signature
and whose second attempt comes back clean. -/
def c4OkEnv : HealEnv :=
  { exec := fun k => if k = 1 then .ok "Error: column missing" else .ok "all good",
    debugLLM := fun _ => .ok "print(2)" }

/-- Heal environment whose first executor call is refused. -/
def c6HealEnv : HealEnv :=
  { exec := fun _ => .connectError, debugLLM := fun _ => .ok "print(2)" }

/-- A workflow at the critic stage with a plausible dataset URL. -/
def c6State : AgentState :=
  { goalState with
    next_step := "critic_agent",
    dataset_info := {goalState.dataset_info with url := "https://example.com/data.csv"} }

/-- Critic environment: HTTP probe succeeds, executor connection is
refused. -/
def c6CriticEnv : CriticEnv := ⟨.ok 200, .connectError⟩

/-- A workflow whose stored locator is itself already in the exclusion
set (the situation the spec's edge case is about). -/
def c5State : AgentState :=
  { goalState with
    dataset_info := {goalState.dataset_info with url := "https://old.example.com/data.csv"},
    rejected_urls := ["https://old.example.com/data.csv"] }

/-- A one-workflow store holding `c5State`. -/
def c5Store : Store := [("wf-c5", c5State)]

/-- A workflow with an empty locator but a non-empty exclusion set
(the state a retry leaves behind before re-running discovery). -/
def c5SearchState : AgentState :=
  {goalState with rejected_urls := ["https://old.example.com/data.csv"]}

/-- Retry environment: research runs (finding nothing), the critic's
HTTP probe raises, the continuation never runs. -/
def c5RetryEnv : RetryEnv :=
  { research := .ran emptyResearchEnv, critic := .ran connFailCriticEnv, cont := c2wEnv }

/-! # Theorems -/

/-! ## Store lemmas -/

theorem storeSet_lookup_self (s : Store) (id : String) (st : AgentState) :
    (storeSet s id st).lookup id = some st := by
  induction s with
  | nil => simp [storeSet, List.lookup]
  | cons kv rest ih =>
    obtain ⟨k, v⟩ := kv
    by_cases h : k = id
    · simp [storeSet, h, List.lookup]
    · have h' : (id == k) = false := by simp [Ne.symm h]
      simp [storeSet, h, List.lookup, ih, h']

/-- Helper: `deriveStatus` maps a rejected approval to `"failed"`
whenever `next_step` is not a waiting or terminal marker. -/
theorem deriveStatus_rejected (s : AgentState) (h1 : s.human_approval = .rejected)
    (h2 : s.next_step ≠ "waiting_human_approval") (h3 : s.next_step ≠ "waiting_schema_approval")
    (h4 : s.next_step ≠ "waiting_final_approval") (h5 : s.next_step ≠ "completed")
    (h6 : s.next_step ≠ "failed") (h7 : s.next_step ≠ "aborted") :
    deriveStatus s = "failed" := by
  unfold deriveStatus
  rw [if_neg h2, if_neg h3, if_neg h4, if_neg h5, if_neg h6, if_neg h7, if_pos h1]

/-! ## C1 -/

/-- **C1** counterexample: `reject` called on a workflow at the final
checkpoint (`waiting_final_approval`, spec name `awaiting_final_feedback`)
returns HTTP 200, not 409, and mutates the record — Scenario C of the
spec fails on the code. -/
theorem c1_counterexample :
    wfAtFinal.next_step = "waiting_final_approval" ∧
    (reject_workflow c1Store "wf-c1").1.code = 200 ∧
    (reject_workflow c1Store "wf-c1").1.code ≠ 409 ∧
    (reject_workflow c1Store "wf-c1").2.lookup "wf-c1" ≠ some wfAtFinal := by
  refine ⟨rfl, rfl, by decide, by decide⟩

/-- **C1** (amended): the decision operations check only that the id
exists; on any existing workflow, at any stage, they return HTTP 200
and mutate the record (no 409 is ever produced). -/
theorem c1_amended_decision_ops_mutate (store : Store) (workflow_id : String)
    (state : AgentState) (h : store.lookup workflow_id = some state) :
    (approve_workflow store workflow_id).1.code = 200 ∧
    ((approve_workflow store workflow_id).2.lookup workflow_id =
      some {state with human_approval := .approved,
                       review_feedback := state.review_feedback ++ ["approved"],
                       next_step := "data_engineering_agent"}) ∧
    (reject_workflow store workflow_id).1.code = 200 ∧
    (∃ st', (reject_workflow store workflow_id).2.lookup workflow_id = some st' ∧
      st'.human_approval = .rejected ∧ st'.next_step = "research_agent") ∧
    (approve_schema store workflow_id).1.code = 200 ∧
    ((approve_schema store workflow_id).2.lookup workflow_id =
      some {state with next_step := "ml_engineering_agent"}) ∧
    (reject_schema store workflow_id).1.code = 200 ∧
    (∃ st', (reject_schema store workflow_id).2.lookup workflow_id = some st' ∧
      st'.next_step = "aborted") ∧
    (∀ satisfied feedback,
      (submit_final_feedback store workflow_id satisfied feedback).1.code = 200) := by
  refine ⟨?_, ?_, ?_, ?_, ?_, ?_, ?_, ?_, ?_⟩
  · simp [approve_workflow, h]
  · simp [approve_workflow, h, storeSet_lookup_self]
  · simp [reject_workflow, h]
  · exact ⟨rejectedState state, by simp [reject_workflow, h, storeSet_lookup_self], rfl, rfl⟩
  · simp [approve_schema, h]
  · simp [approve_schema, h, storeSet_lookup_self]
  · simp [reject_schema, h]
  · have hx : (reject_schema store workflow_id).2.lookup workflow_id =
        some {state with
                next_step := "aborted",
                messages := state.messages ++
                  [⟨"system", "❌ Workflow aborted by user due to Schema Verification failure."⟩]} := by
      simp [reject_schema, h, storeSet_lookup_self]
    exact ⟨_, hx, rfl⟩
  · intro satisfied feedback
    cases satisfied <;> simp [submit_final_feedback, h]

/-- Witness for `c1_amended_decision_ops_mutate` at the concrete store. -/
theorem c1_witness :
    (approve_workflow c1Store "wf-c1").1.code = 200 ∧
    (reject_workflow c1Store "wf-c1").1.code = 200 := by
  have := c1_amended_decision_ops_mutate c1Store "wf-c1" wfAtFinal rfl
  exact ⟨this.1, this.2.2.1⟩

/-! ## C7 -/

/-- **C7**: at the final checkpoint, `feedback` with `satisfied = true`
sets the stage to `completed`; with `satisfied = false` it appends the
note to the message log, re-enters the first generation stage
(`data_engineering_agent`) and leaves `dataset_info` (locator and
captured schema) unchanged. -/
theorem c7_final_feedback (store : Store) (workflow_id : String) (state : AgentState)
    (note : String) (h : store.lookup workflow_id = some state)
    (hstage : state.next_step = "waiting_final_approval") :
    ((submit_final_feedback store workflow_id true note).2.lookup workflow_id =
      some {state with next_step := "completed", human_approval := .approved}) ∧
    ((submit_final_feedback store workflow_id true note).1 =
      ⟨200, "completed", "Workflow marked as completed"⟩) ∧
    (∃ st', (submit_final_feedback store workflow_id false note).2.lookup workflow_id =
        some st' ∧
      st'.next_step = "data_engineering_agent" ∧
      st'.messages = state.messages ++
        [⟨"user", "Feedback: " ++ (if note ≠ "" then note else "Results not satisfactory")⟩] ∧
      st'.dataset_info = state.dataset_info) ∧
    ((submit_final_feedback store workflow_id false note).1 =
      ⟨200, "retrying", "Retrying workflow from Data Engineering phase"⟩) := by
  have hx : (submit_final_feedback store workflow_id false note).2.lookup workflow_id =
      some {state with
        messages := state.messages ++
          [⟨"user", "Feedback: " ++ (if note ≠ "" then note else "Results not satisfactory")⟩],
        next_step := "data_engineering_agent"} := by
    simp [submit_final_feedback, h, storeSet_lookup_self]
  refine ⟨?_, ?_, ⟨_, hx, rfl, rfl, rfl⟩, ?_⟩ <;>
    simp [submit_final_feedback, h, storeSet_lookup_self]

/-- Witness for `c7_final_feedback`. -/
theorem c7_witness :
    (submit_final_feedback c1Store "wf-c1" true "").2.lookup "wf-c1" =
      some {wfAtFinal with next_step := "completed", human_approval := .approved} := by
  exact (c7_final_feedback c1Store "wf-c1" wfAtFinal "" rfl rfl).1

/-! ## C2 -/

/-- Helper: `data_engineering_node` never touches `dataset_info`. -/
theorem data_engineering_node_dataset_info (llm : Except String String) (s : AgentState) :
    (data_engineering_node llm s).dataset_info = s.dataset_info := by
  cases llm <;> rfl

/-- **C2** counterexample: with `captured_schema` already holding the
real value written by the async callback, a schema-capture run whose
executor call raises overwrites it unconditionally with the placeholder
`"Schema not available"` — so a later empty/placeholder write does
change an earlier non-empty real value. -/
theorem c2_counterexample :
    c2State.dataset_info.schema = pyStrList ["age", "bmi"] ∧
    pyStrList ["age", "bmi"] ≠ "" ∧
    pyStrList ["age", "bmi"] ≠ "Schema not available" ∧
    ((continue_workflow_after_approval c2Env c2Store "wf-c2").lookup "wf-c2").map
        (fun s => s.dataset_info.schema) = some "Schema not available" := by
  exact ⟨rfl, by decide, by decide, rfl⟩

/-- **C2** (amended): the log-scan channel checks that
`captured_schema` is still empty before writing and the relay-poll
channel checks for empty-or-placeholder, so on an exception-free
capture run a real value survives; but the async callback overwrites
unconditionally, and the exception / missing-EDA-code paths write the
placeholder unconditionally. -/
theorem c2_amended_schema_precedence :
    (∀ (env : ApprovalContEnv) (store : Store) (workflow_id : String) (state : AgentState)
       (llm : Except String String) (logs : String),
      store.lookup workflow_id = some state →
      env.dataEng = .ran llm →
      env.schemaExec = .ok logs →
      (data_engineering_node llm {state with next_step := "data_engineering_agent"}).code_context.eda_code ≠ "" →
      state.dataset_info.schema ≠ "" →
      state.dataset_info.schema ≠ "Schema not available" →
      ∃ st', (continue_workflow_after_approval env store workflow_id).lookup workflow_id =
          some st' ∧
        st'.dataset_info.schema = state.dataset_info.schema) ∧
    (∀ (store : Store) (workflow_id : String) (state : AgentState) (columns : List String),
      store.lookup workflow_id = some state →
      (receive_schema_callback store workflow_id columns).2.lookup workflow_id =
        some {state with
                dataset_info := {state.dataset_info with schema := pyStrList columns}}) := by
  constructor
  · intro env store workflow_id state llm logs h hde hexec heda hs1 hs2
    have hpres : (data_engineering_node llm {state with next_step := "data_engineering_agent"}).dataset_info.schema
        = state.dataset_info.schema := by
      rw [data_engineering_node_dataset_info]
    have hmain : continue_workflow_after_approval env store workflow_id =
        storeSet store workflow_id
          {(data_engineering_node llm {state with next_step := "data_engineering_agent"}) with
            next_step := "waiting_schema_approval"} := by
      by_cases htag : hasSubstr logs "DATA_SCHEMA_LOCKED:" = true <;>
        simp [continue_workflow_after_approval, continueApprovalState, h, hde, hexec, heda,
          htag, hpres, hs1, hs2]
    exact ⟨_, by rw [hmain]; exact storeSet_lookup_self _ _ _,
      by rw [data_engineering_node_dataset_info]⟩
  · intro store workflow_id state columns h
    simp [receive_schema_callback, h, storeSet_lookup_self]

/-- Witness for `c2_amended_schema_precedence` at a concrete run. -/
theorem c2_witness :
    (∃ st', (continue_workflow_after_approval c2wEnv c2Store "wf-c2").lookup "wf-c2" =
        some st' ∧
      st'.dataset_info.schema = c2State.dataset_info.schema) ∧
    (receive_schema_callback c2Store "wf-c2" ["sex"]).2.lookup "wf-c2" =
      some {c2State with
              dataset_info := {c2State.dataset_info with schema := pyStrList ["sex"]}} := by
  constructor
  · exact c2_amended_schema_precedence.1 c2wEnv c2Store "wf-c2" c2State
      (.ok "print(1)") "plain logs" rfl rfl rfl (by decide) (by decide) (by decide)
  · exact c2_amended_schema_precedence.2 c2Store "wf-c2" c2State ["sex"] rfl

/-! ## C3 -/

/-- Helper: the retry loop never executes more attempts than it was
given. -/
theorem phase1Aux_attempts_le (env : SimEnv) :
    ∀ (l : List Nat) (state : AgentState), (phase1Aux env l state).2.2 ≤ l.length := by
  intro l
  induction l with
  | nil => intro state; simp [phase1Aux]
  | cons a rest ih =>
    intro state
    rcases hres : env.research a with _ | renv <;>
      simp only [phase1Aux, hres, List.length_cons]
    · split
      · simp
      · exact Nat.succ_le_succ (ih _)
    · rcases hcrit : env.critic a with _ | cenv <;> simp only [hcrit]
      · split
        · simp
        · exact Nat.succ_le_succ (ih _)
      · split
        · simp
        · split
          · simp
          · split
            · exact Nat.succ_le_succ (ih _)
            · simp

/-- Helper: when on every remaining attempt research runs and the
critic run flags a `critical_error` (keeping `next_step` at the critic
marker and not approving), the loop consumes every attempt, exits
without approval, appends the abort message, and leaves `next_step` at
the critic marker. -/
theorem phase1Aux_critical_all (env : SimEnv) :
    ∀ (l : List Nat) (state : AgentState), l ≠ [] →
    (∀ k, k ∈ l → ∃ renv, env.research k = .ran renv) →
    (∀ k, k ∈ l → ∃ cenv, env.critic k = .ran cenv ∧
      ∀ s : AgentState, s.next_step = "critic_agent" →
        (critic_node cenv s).next_step = "critic_agent" ∧
        (critic_node cenv s).review_feedback.contains "approved" = false ∧
        (critic_node cenv s).review_feedback.any
          (fun fb => hasSubstr fb "critical_error") = true) →
    (phase1Aux env l state).1 = .noApproval ∧
    (phase1Aux env l state).2.2 = l.length ∧
    (phase1Aux env l state).2.1.next_step = "critic_agent" ∧
    ∃ pre, (phase1Aux env l state).2.1.messages = pre ++ [abortNoDatasetMsg] := by
  intro l
  induction l with
  | nil => intro state hne _ _; exact absurd rfl hne
  | cons a rest ih =>
    intro state _ hres hcrit
    obtain ⟨renv, hr⟩ := hres a (List.mem_cons_self _ _)
    obtain ⟨cenv, hc, hprop⟩ := hcrit a (List.mem_cons_self _ _)
    obtain ⟨hn, hap, hcr⟩ := hprop
      {research_node renv {state with next_step := "research_agent"} with
        next_step := "critic_agent"} rfl
    by_cases hrest : rest = []
    · subst hrest
      simp only [phase1Aux, hr, hc, hn, hap, hcr]
      refine ⟨?_, ?_, ?_, ?_⟩ <;> simp [phase1Aux, hn]
    · obtain ⟨ih1, ih2, ih3, ih4⟩ := ih
        (critic_node cenv
          {research_node renv {state with next_step := "research_agent"} with
            next_step := "critic_agent"})
        hrest
        (fun k hk => hres k (List.mem_cons_of_mem _ hk))
        (fun k hk => hcrit k (List.mem_cons_of_mem _ hk))
      simp only [phase1Aux, hr, hc, hn, hap, hcr]
      refine ⟨?_, ?_, ?_, ?_⟩ <;> simp [ih1, ih2, ih3, ih4]

/-- **C3** counterexample: with validation flagging `critical_error` on
all three attempts, the loop does stop after 3 attempts and appends the
abort message, but `next_step` stays at `"critic_agent"` — the workflow
is never transitioned to `failed`, and the status endpoint derives
`"running"` for it. -/
theorem c3_counterexample :
    (run_workflow_simulation_research_phase c3Env goalState).1 = .noApproval ∧
    (run_workflow_simulation_research_phase c3Env goalState).2.2 = 3 ∧
    (run_workflow_simulation_research_phase c3Env goalState).2.1.next_step = "critic_agent" ∧
    (run_workflow_simulation_research_phase c3Env goalState).2.1.next_step ≠ "failed" ∧
    deriveStatus (run_workflow_simulation_research_phase c3Env goalState).2.1 = "running" ∧
    (run_workflow_simulation_research_phase c3Env goalState).2.1.messages.getLast? =
      some abortNoDatasetMsg := by
  have hn : (run_workflow_simulation_research_phase c3Env goalState).2.1.next_step =
      "critic_agent" := rfl
  refine ⟨rfl, rfl, hn, ?_, rfl, rfl⟩
  rw [hn]; decide

/-- **C3** (amended): the discovery+validation loop runs at most 3
times; when validation flags `critical_error` on every attempt, the
loop exits after exactly 3 attempts and appends the abort message
(which does not name the bound), but the workflow is left at the critic
stage marker — it is never transitioned to the terminal stage
`failed`. -/
theorem c3_amended_retry_bound :
    (∀ (env : SimEnv) (state : AgentState),
      (run_workflow_simulation_research_phase env state).2.2 ≤ 3) ∧
    (∀ (env : SimEnv) (state : AgentState),
      (∀ k, ∃ renv, env.research k = .ran renv) →
      (∀ k, ∃ cenv, env.critic k = .ran cenv ∧
        ∀ s : AgentState, s.next_step = "critic_agent" →
          (critic_node cenv s).next_step = "critic_agent" ∧
          (critic_node cenv s).review_feedback.contains "approved" = false ∧
          (critic_node cenv s).review_feedback.any
            (fun fb => hasSubstr fb "critical_error") = true) →
      (run_workflow_simulation_research_phase env state).1 = .noApproval ∧
      (run_workflow_simulation_research_phase env state).2.2 = 3 ∧
      (run_workflow_simulation_research_phase env state).2.1.next_step = "critic_agent" ∧
      ∃ pre, (run_workflow_simulation_research_phase env state).2.1.messages =
        pre ++ [abortNoDatasetMsg]) := by
  constructor
  · intro env state
    exact phase1Aux_attempts_le env [1, 2, 3] state
  · intro env state hres hcrit
    exact phase1Aux_critical_all env [1, 2, 3] state (by decide)
      (fun k _ => hres k) (fun k _ => hcrit k)

/-- Helper for the C3 witness: against `connFailCriticEnv`, every
critic run on a state at the critic marker yields a `critical_error`
without approval and without moving `next_step`. -/
theorem connFailCritic_property (s : AgentState) (h : s.next_step = "critic_agent") :
    (critic_node connFailCriticEnv s).next_step = "critic_agent" ∧
    (critic_node connFailCriticEnv s).review_feedback.contains "approved" = false ∧
    (critic_node connFailCriticEnv s).review_feedback.any
      (fun fb => hasSubstr fb "critical_error") = true := by
  by_cases hu : s.dataset_info.url = "" ∨ pyLen (pyStrip s.dataset_info.url) < 5
  · simp only [critic_node, if_pos hu]
    exact ⟨h, rfl, rfl⟩
  · simp only [critic_node, if_neg hu]
    exact ⟨h, rfl, rfl⟩

/-- Witness for `c3_amended_retry_bound` at a concrete environment. -/
theorem c3_witness :
    (run_workflow_simulation_research_phase c3Env goalState).1 = .noApproval ∧
    (run_workflow_simulation_research_phase c3Env goalState).2.2 = 3 := by
  have h := c3_amended_retry_bound.2 c3Env goalState
    (fun _ => ⟨emptyResearchEnv, rfl⟩)
    (fun _ => ⟨connFailCriticEnv, rfl, fun s hs => connFailCritic_property s hs⟩)
  exact ⟨h.1, h.2.1⟩

/-! ## C4 -/

/-- **C4**: the self-healing loop runs at most 3 execution attempts; if
every attempt's captured output contains a failure signature (exact
substring match against `error_keywords`), the stage becomes `failed`
after exactly 3 attempts; if some attempt `k ≤ 3` produces output with
no signature (all earlier ones having signatures), the loop stops at
attempt `k` and the stage advances to `waiting_final_approval`. -/
theorem c4_self_heal_loop :
    (∀ (env : HealEnv) (state : AgentState),
      (∀ k, k ∈ [1, 2, 3] → ∃ logs, env.exec k = .ok logs ∧ anySignature logs = true) →
      (browser_execution_loop env state).1.next_step = "failed" ∧
      (browser_execution_loop env state).2 = 3) ∧
    (∀ (env : HealEnv) (state : AgentState) (k : Nat) (logs : String),
      k ∈ [1, 2, 3] →
      (∀ j, j ∈ [1, 2, 3] → j < k → ∃ lj, env.exec j = .ok lj ∧ anySignature lj = true) →
      env.exec k = .ok logs → anySignature logs = false →
      (browser_execution_loop env state).1.next_step = "waiting_final_approval" ∧
      (browser_execution_loop env state).2 = k) := by
  constructor
  · intro env state h
    obtain ⟨l1, h1, s1⟩ := h 1 (by decide)
    obtain ⟨l2, h2, s2⟩ := h 2 (by decide)
    obtain ⟨l3, h3, s3⟩ := h 3 (by decide)
    simp [browser_execution_loop, selfHealAux, h1, h2, h3, s1, s2, s3]
  · intro env state k logs hk hprev hke hks
    have hk' : k = 1 ∨ k = 2 ∨ k = 3 := by simpa using hk
    rcases hk' with rfl | rfl | rfl
    · simp [browser_execution_loop, selfHealAux, hke, hks]
    · obtain ⟨l1, h1, s1⟩ := hprev 1 (by decide) (by decide)
      simp [browser_execution_loop, selfHealAux, h1, s1, hke, hks]
    · obtain ⟨l1, h1, s1⟩ := hprev 1 (by decide) (by decide)
      obtain ⟨l2, h2, s2⟩ := hprev 2 (by decide) (by decide)
      simp [browser_execution_loop, selfHealAux, h1, s1, h2, s2, hke, hks]

/-- Witness for `c4_self_heal_loop`: all-failing run exits `failed`
after 3 attempts; a clean second attempt exits to the final checkpoint
after 2. -/
theorem c4_witness :
    ((browser_execution_loop c4FailEnv goalState).1.next_step = "failed" ∧
     (browser_execution_loop c4FailEnv goalState).2 = 3) ∧
    ((browser_execution_loop c4OkEnv goalState).1.next_step = "waiting_final_approval" ∧
     (browser_execution_loop c4OkEnv goalState).2 = 2) := by
  constructor
  · exact c4_self_heal_loop.1 c4FailEnv goalState
      (fun k _ => ⟨"Traceback (most recent call last): KeyError", rfl, rfl⟩)
  · refine c4_self_heal_loop.2 c4OkEnv goalState 2 "all good" (by decide) ?_ rfl rfl
    intro j hj hlt
    have hj1 : j = 1 := by simp at hj; omega
    subst hj1
    exact ⟨"Error: column missing", rfl, rfl⟩

/-! ## C6 -/

/-- **C6** counterexample: during validation, a refused connection to
the executor does not short-circuit to `failed` — the critic instead
approves the URL on the strength of the HTTP probe alone, and the loop
exits successfully. -/
theorem c6_counterexample :
    (critic_node c6CriticEnv c6State).review_feedback = ["approved"] ∧
    (critic_node c6CriticEnv c6State).next_step = "critic_agent" ∧
    (critic_node c6CriticEnv c6State).next_step ≠ "failed" := by
  have h : (critic_node c6CriticEnv c6State).next_step = "critic_agent" := rfl
  refine ⟨rfl, h, ?_⟩
  rw [h]; decide

/-- **C6** (amended): in the self-healing execution loop a refused
executor connection does short-circuit the loop to `failed` at the
attempt where it occurs, consuming no further attempts and never
retrying; but in the validation stage a refused executor connection
makes the critic approve based on the stage-1 HTTP check alone. -/
theorem c6_amended_connect_error :
    (∀ (env : HealEnv) (state : AgentState) (k : Nat),
      k ∈ [1, 2, 3] →
      (∀ j, j ∈ [1, 2, 3] → j < k → ∃ lj, env.exec j = .ok lj ∧ anySignature lj = true) →
      env.exec k = .connectError →
      (browser_execution_loop env state).1.next_step = "failed" ∧
      (browser_execution_loop env state).2 = k) ∧
    (∀ (s : AgentState) (status : Nat),
      s.dataset_info.url ≠ "" → ¬ pyLen (pyStrip s.dataset_info.url) < 5 →
      200 ≤ status → status < 300 →
      (critic_node ⟨.ok status, .connectError⟩ s).review_feedback = ["approved"]) := by
  constructor
  · intro env state k hk hprev hke
    have hk' : k = 1 ∨ k = 2 ∨ k = 3 := by simpa using hk
    rcases hk' with rfl | rfl | rfl
    · simp [browser_execution_loop, selfHealAux, hke]
    · obtain ⟨l1, h1, s1⟩ := hprev 1 (by decide) (by decide)
      simp [browser_execution_loop, selfHealAux, h1, s1, hke]
    · obtain ⟨l1, h1, s1⟩ := hprev 1 (by decide) (by decide)
      obtain ⟨l2, h2, s2⟩ := hprev 2 (by decide) (by decide)
      simp [browser_execution_loop, selfHealAux, h1, s1, h2, s2, hke]
  · intro s status h1 h2 h3 h4
    have hu : ¬ (s.dataset_info.url = "" ∨ pyLen (pyStrip s.dataset_info.url) < 5) := by
      simp only [not_or]
      exact ⟨h1, h2⟩
    have hrange : ¬ ¬ (200 ≤ status ∧ status < 300) := not_not_intro ⟨h3, h4⟩
    simp only [critic_node, if_neg hu]
    rw [if_neg hrange]
    rfl

/-- Witness for `c6_amended_connect_error`: a first-attempt connection
refusal fails the workflow after exactly one attempt, and the critic
approves on a refused executor connection. -/
theorem c6_witness :
    ((browser_execution_loop c6HealEnv goalState).1.next_step = "failed" ∧
     (browser_execution_loop c6HealEnv goalState).2 = 1) ∧
    (critic_node ⟨.ok 200, .connectError⟩ c6State).review_feedback = ["approved"] := by
  constructor
  · refine c6_amended_connect_error.1 c6HealEnv goalState 1 (by decide) ?_ rfl
    intro j hj hlt
    exfalso
    simp at hj
    omega
  · exact c6_amended_connect_error.2 c6State 200 (by decide) (by decide) (by decide) (by decide)

/-! ## C5 -/

/-- Helper: every Serper-sourced candidate passed the exclusion
filter. -/
theorem researchSerperSources_not_rejected (env : ResearchEnv) (rej : List String) :
    ∀ s ∈ researchSerperSources env rej, rej.contains s.url = false := by
  intro s hs
  unfold researchSerperSources at hs
  split at hs
  · split at hs
    · rw [List.mem_filter] at hs
      have h2 := hs.2
      simp only [Bool.and_eq_true, Bool.not_eq_true'] at h2
      exact h2.2
    · cases hs
  · cases hs

/-- Helper: every candidate in the accumulated (reordered)
`dataset_sources` of a successful Tavily search passed an exclusion
filter. -/
theorem researchTavilySources_not_rejected (env : ResearchEnv) (rej : List String)
    (results : List SearchItem) :
    ∀ s ∈ researchTavilySources env rej results, rej.contains s.url = false := by
  intro s hs
  unfold researchTavilySources at hs
  rw [List.mem_append, List.mem_filter, List.mem_filter] at hs
  have hs0 : s ∈ researchSerperSources env rej ++ (results.filter
      (fun r => (r.url != "") && ! rej.contains r.url)).map
    (fun r => { url := r.url, snippet := pyTake r.snippet 200 : SearchItem }) := by
    rcases hs with h | h
    · exact h.1
    · exact h.1
  rw [List.mem_append] at hs0
  rcases hs0 with h | h
  · exact researchSerperSources_not_rejected env rej s h
  · rw [List.mem_map] at h
    obtain ⟨r, hr, rfl⟩ := h
    rw [List.mem_filter] at hr
    have h2 := hr.2
    simp only [Bool.and_eq_true, Bool.not_eq_true'] at h2
    exact h2.2

/-- Helper: the locator chosen by the search pipeline is either empty
or absent from the exclusion set. -/
theorem researchAfterTavily_url_ok (env : ResearchEnv) (rej : List String) :
    (researchAfterTavily env rej).2.1 = "" ∨
    rej.contains (researchAfterTavily env rej).2.1 = false := by
  have hd1 : (match (researchSerperSources env rej).head? with
        | some s => s.url | none => "") = "" ∨
      rej.contains (match (researchSerperSources env rej).head? with
        | some s => s.url | none => "") = false := by
    cases hh : (researchSerperSources env rej).head? with
    | none => exact Or.inl rfl
    | some s =>
      exact Or.inr (researchSerperSources_not_rejected env rej s
        (List.mem_of_mem_head? (by simp [hh])))
  rcases htav : env.tavily with e | results
  · have hv : (researchAfterTavily env rej).2.1 =
        (match (researchSerperSources env rej).head? with
          | some s => s.url | none => "") := by
      simp [researchAfterTavily, htav]
    rw [hv]; exact hd1
  · by_cases hq : env.dataset_query ≠ "" ∧ results ≠ []
    · cases hh : (researchTavilySources env rej results).head? with
      | none =>
        have hv : (researchAfterTavily env rej).2.1 =
            (match (researchSerperSources env rej).head? with
              | some s => s.url | none => "") := by
          simp [researchAfterTavily, htav, hq, hh]
        rw [hv]; exact hd1
      | some s0 =>
        have hv : (researchAfterTavily env rej).2.1 = s0.url := by
          simp [researchAfterTavily, htav, hq, hh]
        rw [hv]
        exact Or.inr (researchTavilySources_not_rejected env rej results s0
          (List.mem_of_mem_head? (by simp [hh])))
    · have hv : (researchAfterTavily env rej).2.1 =
          (match (researchSerperSources env rej).head? with
            | some s => s.url | none => "") := by
        simp [researchAfterTavily, htav, hq]
      rw [hv]; exact hd1

/-- Helper: on the search path (no usable user-provided URL, no outer
exception), the locator chosen by `research_node` is never a non-empty
member of the exclusion set. -/
theorem research_search_url_excluded (renv : ResearchEnv) (state : AgentState) (L : String)
    (hL : L ∈ state.rejected_urls) (hL0 : L ≠ "")
    (huser : ¬ (state.dataset_info.url ≠ "" ∧ pyLen (pyStrip state.dataset_info.url) > 5))
    (hfail : renv.fail = false) :
    (research_node renv state).dataset_info.url ≠ L := by
  have hurl : (research_node renv state).dataset_info.url =
      (researchAfterTavily renv state.rejected_urls).2.1 := by
    simp [research_node, huser, hfail]
  rw [hurl]
  rcases researchAfterTavily_url_ok renv state.rejected_urls with h0 | hc
  · rw [h0]; exact fun e => hL0 e.symm
  · intro e
    rw [e] at hc
    have hT : state.rejected_urls.contains L = true := List.elem_eq_true_of_mem hL
    rw [hT] at hc
    cases hc

/-- Helper: rejection only appends to the exclusion set. -/
theorem rejectedState_mono (state : AgentState) :
    ∀ L ∈ state.rejected_urls, L ∈ (rejectedState state).rejected_urls := by
  intro L hL
  unfold rejectedState
  by_cases hc : state.dataset_info.url ≠ "" ∧
      ¬ state.rejected_urls.contains state.dataset_info.url
  · simp only [if_pos hc]
    exact List.mem_append_left _ hL
  · simp only [if_neg hc]
    exact hL

/-- Helper: rejection records the (non-empty) rejected locator. -/
theorem rejectedState_records_url (state : AgentState)
    (h : state.dataset_info.url ≠ "") :
    state.dataset_info.url ∈ (rejectedState state).rejected_urls := by
  unfold rejectedState
  by_cases hc : state.dataset_info.url ≠ "" ∧
      ¬ state.rejected_urls.contains state.dataset_info.url
  · simp only [if_pos hc]
    exact List.mem_append_right _ (by simp)
  · simp only [if_neg hc]
    rcases hcb : state.rejected_urls.contains state.dataset_info.url with _ | _
    · exact absurd ⟨h, by rw [hcb]; exact Bool.false_ne_true⟩ hc
    · exact List.mem_of_elem_eq_true hcb

/-- Helper: `critic_node` either keeps the stored locator or clears
it. -/
theorem critic_node_url (env : CriticEnv) (s : AgentState) :
    (critic_node env s).dataset_info.url = s.dataset_info.url ∨
    (critic_node env s).dataset_info.url = "" := by
  by_cases hu : s.dataset_info.url = "" ∨ pyLen (pyStrip s.dataset_info.url) < 5
  · exact Or.inl (by simp [critic_node, if_pos hu])
  · rcases henv : env.httpCheck with e | status
    · exact Or.inr (by simp [critic_node, if_neg hu, henv])
    · by_cases hr : ¬ (200 ≤ status ∧ status < 300)
      · exact Or.inr (by simp [critic_node, if_neg hu, henv, hr])
      · obtain ⟨hr1, hr2⟩ := not_not.mp hr
        rcases hbe : env.browserExec with logs | c | _ | m
        · by_cases hk : hasSubstr (pyLower s.dataset_info.url) "kaggle.com/datasets" = true
          · exact Or.inl (by simp [critic_node, if_neg hu, henv, hr1, hr2, hbe, hk])
          · exact Or.inl (by simp [critic_node, if_neg hu, henv, hr1, hr2, hbe, hk])
        · exact Or.inr (by simp [critic_node, if_neg hu, henv, hr1, hr2, hbe])
        · exact Or.inl (by simp [critic_node, if_neg hu, henv, hr1, hr2, hbe])
        · exact Or.inl (by simp [critic_node, if_neg hu, henv, hr1, hr2, hbe])

/-- Helper: the post-approval continuation only ever touches the
captured schema inside `dataset_info`; the locator survives. -/
theorem continueApprovalState_url (env : ApprovalContEnv) (state : AgentState) :
    (continueApprovalState env state).dataset_info.url = state.dataset_info.url := by
  cases hde : env.dataEng with
  | raised => simp [continueApprovalState, hde]
  | ran llm =>
    simp only [continueApprovalState, hde]
    repeat' split
    all_goals simp [data_engineering_node_dataset_info]

/-- Helper: after a rejection is processed by the retry task, the
stored locator can never again be a non-empty excluded locator,
whatever the searches return. -/
theorem retry_url_excluded (env : RetryEnv) (store : Store) (workflow_id : String)
    (state : AgentState) (L : String)
    (h : store.lookup workflow_id = some state)
    (hL : L ∈ state.rejected_urls) (hL0 : L ≠ "")
    (hfail : ∀ renv, env.research = .ran renv → renv.fail = false) :
    ∃ st', (retry_research_after_rejection env store workflow_id).lookup workflow_id =
      some st' ∧ st'.dataset_info.url ≠ L := by
  cases hres : env.research with
  | raised =>
    have hx : (retry_research_after_rejection env store workflow_id).lookup workflow_id =
        some {state with
                dataset_info := {state.dataset_info with url := "", data_preview := ""},
                review_feedback := [],
                human_approval := .pending,
                next_step := "failed"} := by
      simp [retry_research_after_rejection, h, hres, storeSet_lookup_self]
    refine ⟨_, hx, ?_⟩
    exact fun e => hL0 e.symm
  | ran renv =>
    have hmidurl : (research_node renv {state with
        dataset_info := {state.dataset_info with url := "", data_preview := ""},
        review_feedback := [],
        human_approval := .pending,
        next_step := "research_agent"}).dataset_info.url ≠ L := by
      refine research_search_url_excluded renv _ L hL hL0 ?_ (hfail renv hres)
      intro hcontra
      exact hcontra.1 rfl
    cases hcrit : env.critic with
    | raised =>
      have hx : (retry_research_after_rejection env store workflow_id).lookup workflow_id =
          some {(research_node renv {state with
                  dataset_info := {state.dataset_info with url := "", data_preview := ""},
                  review_feedback := [],
                  human_approval := .pending,
                  next_step := "research_agent"}) with next_step := "failed"} := by
        simp [retry_research_after_rejection, h, hres, hcrit, storeSet_lookup_self]
      exact ⟨_, hx, hmidurl⟩
    | ran cenv =>
      have hcriturl : (critic_node cenv {(research_node renv {state with
          dataset_info := {state.dataset_info with url := "", data_preview := ""},
          review_feedback := [],
          human_approval := .pending,
          next_step := "research_agent"}) with
            next_step := "critic_agent"}).dataset_info.url ≠ L := by
        rcases critic_node_url cenv {(research_node renv {state with
            dataset_info := {state.dataset_info with url := "", data_preview := ""},
            review_feedback := [],
            human_approval := .pending,
            next_step := "research_agent"}) with next_step := "critic_agent"} with hce | hce
        · rw [hce]; exact hmidurl
        · rw [hce]; exact fun e => hL0 e.symm
      simp only [retry_research_after_rejection, h, hres, hcrit]
      split
      · exact ⟨_, storeSet_lookup_self _ _ _, hcriturl⟩
      · split
        · refine ⟨continueApprovalState env.cont (critic_node cenv
            {(research_node renv {state with
                dataset_info := {state.dataset_info with url := "", data_preview := ""},
                review_feedback := [],
                human_approval := .pending,
                next_step := "research_agent"}) with next_step := "critic_agent"}), ?_, ?_⟩
          · simp [continue_workflow_after_approval, storeSet_lookup_self]
          · rw [continueApprovalState_url]
            exact hcriturl
        · exact ⟨_, storeSet_lookup_self _ _ _, hcriturl⟩

/-- **C5** counterexample: a discovery attempt on a workflow whose
stored locator is already in the exclusion set returns that locator
unchanged (user-provided-URL branch), flags no `critical_error`, and
hands it straight to the next stage — the excluded locator is silently
reused. -/
theorem c5_counterexample :
    c5State.rejected_urls.contains c5State.dataset_info.url = true ∧
    (research_node emptyResearchEnv c5State).dataset_info.url = c5State.dataset_info.url ∧
    (research_node emptyResearchEnv c5State).review_feedback = [] ∧
    (research_node emptyResearchEnv c5State).next_step = "data_engineering_agent" := by
  exact ⟨rfl, rfl, rfl, rfl⟩

/-- **C5** (amended): search-based discovery consults the exclusion
set — a non-empty excluded locator is never chosen by the search path,
the reject operation only appends to the exclusion set (recording the
rejected locator), and the whole retry-after-rejection flow can never
store an excluded locator again; but there is no downstream guard, so a
discovery attempt that does return an excluded locator (the
user-provided-URL branch) is silently reused instead of being treated
as a fresh `critical_error`. -/
theorem c5_amended_exclusion :
    (∀ (renv : ResearchEnv) (state : AgentState) (L : String),
      L ∈ state.rejected_urls → L ≠ "" →
      ¬ (state.dataset_info.url ≠ "" ∧ pyLen (pyStrip state.dataset_info.url) > 5) →
      renv.fail = false →
      (research_node renv state).dataset_info.url ≠ L) ∧
    (∀ (store : Store) (workflow_id : String) (state : AgentState),
      store.lookup workflow_id = some state →
      (reject_workflow store workflow_id).2.lookup workflow_id =
        some (rejectedState state) ∧
      (∀ L ∈ state.rejected_urls, L ∈ (rejectedState state).rejected_urls) ∧
      (state.dataset_info.url ≠ "" →
        state.dataset_info.url ∈ (rejectedState state).rejected_urls)) ∧
    (∀ (env : RetryEnv) (store : Store) (workflow_id : String) (state : AgentState)
       (L : String),
      store.lookup workflow_id = some state →
      L ∈ state.rejected_urls → L ≠ "" →
      (∀ renv, env.research = .ran renv → renv.fail = false) →
      ∃ st', (retry_research_after_rejection env store workflow_id).lookup workflow_id =
        some st' ∧ st'.dataset_info.url ≠ L) := by
  refine ⟨research_search_url_excluded, ?_, retry_url_excluded⟩
  intro store workflow_id state h
  exact ⟨by simp [reject_workflow, h, storeSet_lookup_self],
    rejectedState_mono state, rejectedState_records_url state⟩

/-- Witness for `c5_amended_exclusion` at concrete inputs. -/
theorem c5_witness :
    ((research_node emptyResearchEnv c5SearchState).dataset_info.url ≠
      "https://old.example.com/data.csv") ∧
    ((reject_workflow c5Store "wf-c5").2.lookup "wf-c5" = some (rejectedState c5State)) ∧
    (∃ st', (retry_research_after_rejection c5RetryEnv c5Store "wf-c5").lookup "wf-c5" =
      some st' ∧ st'.dataset_info.url ≠ "https://old.example.com/data.csv") := by
  refine ⟨?_, ?_, ?_⟩
  · exact c5_amended_exclusion.1 emptyResearchEnv c5SearchState
      "https://old.example.com/data.csv" (by decide) (by decide)
      (fun hcontra => hcontra.1 rfl) rfl
  · exact (c5_amended_exclusion.2.1 c5Store "wf-c5" c5State rfl).1
  · refine c5_amended_exclusion.2.2 c5RetryEnv c5Store "wf-c5" c5State
      "https://old.example.com/data.csv" rfl (by decide) (by decide) ?_
    intro renv hr
    injection hr with h2
    rw [← h2]
    rfl

/-! ## C8 -/

/-- **C8**: every per-workflow operation (status, approve, reject,
schema/approve, schema/reject, schema/callback, feedback, delete)
invoked with an unknown id returns HTTP 404 and leaves the store
unchanged. -/
theorem c8_unknown_id_all_ops_404 (store : Store) (workflow_id : String)
    (h : store.lookup workflow_id = none) :
    get_workflow_status store workflow_id = (404, none, store) ∧
    approve_workflow store workflow_id =
      (⟨404, "", "Workflow " ++ workflow_id ++ " not found"⟩, store) ∧
    reject_workflow store workflow_id =
      (⟨404, "", "Workflow " ++ workflow_id ++ " not found"⟩, store) ∧
    approve_schema store workflow_id = (⟨404, "", "Workflow not found"⟩, store) ∧
    reject_schema store workflow_id = (⟨404, "", "Workflow not found"⟩, store) ∧
    (∀ columns, receive_schema_callback store workflow_id columns =
      (⟨404, "", "Workflow not found"⟩, store)) ∧
    (∀ satisfied feedback, submit_final_feedback store workflow_id satisfied feedback =
      (⟨404, "", "Workflow " ++ workflow_id ++ " not found"⟩, store)) ∧
    delete_workflow store workflow_id = (⟨404, "", "Workflow not found"⟩, store) := by
  refine ⟨?_, ?_, ?_, ?_, ?_, ?_, ?_, ?_⟩ <;>
    simp [get_workflow_status, approve_workflow, reject_workflow, approve_schema,
      reject_schema, receive_schema_callback, submit_final_feedback, delete_workflow, h]

/-- Witness for `c8_unknown_id_all_ops_404` on a store that does not
contain the requested id. -/
theorem c8_witness :
    get_workflow_status c1Store "wf-missing" = (404, none, c1Store) ∧
    delete_workflow c1Store "wf-missing" = (⟨404, "", "Workflow not found"⟩, c1Store) := by
  have := c8_unknown_id_all_ops_404 c1Store "wf-missing" rfl
  exact ⟨this.1, this.2.2.2.2.2.2.2⟩

/-! ## C10 -/

/-- **C10**: after the bulk clear, the store is empty and every
subsequent per-workflow operation on any id returns HTTP 404. -/
theorem c10_clear_then_all_404 (store : Store) (workflow_id : String) :
    ((clear_all_workflows store).2.lookup workflow_id = none) ∧
    get_workflow_status (clear_all_workflows store).2 workflow_id =
      (404, none, (clear_all_workflows store).2) ∧
    approve_workflow (clear_all_workflows store).2 workflow_id =
      (⟨404, "", "Workflow " ++ workflow_id ++ " not found"⟩, (clear_all_workflows store).2) ∧
    reject_workflow (clear_all_workflows store).2 workflow_id =
      (⟨404, "", "Workflow " ++ workflow_id ++ " not found"⟩, (clear_all_workflows store).2) ∧
    approve_schema (clear_all_workflows store).2 workflow_id =
      (⟨404, "", "Workflow not found"⟩, (clear_all_workflows store).2) ∧
    reject_schema (clear_all_workflows store).2 workflow_id =
      (⟨404, "", "Workflow not found"⟩, (clear_all_workflows store).2) ∧
    (∀ columns, receive_schema_callback (clear_all_workflows store).2 workflow_id columns =
      (⟨404, "", "Workflow not found"⟩, (clear_all_workflows store).2)) ∧
    (∀ satisfied feedback,
      submit_final_feedback (clear_all_workflows store).2 workflow_id satisfied feedback =
        (⟨404, "", "Workflow " ++ workflow_id ++ " not found"⟩, (clear_all_workflows store).2)) ∧
    delete_workflow (clear_all_workflows store).2 workflow_id =
      (⟨404, "", "Workflow not found"⟩, (clear_all_workflows store).2) := by
  refine ⟨rfl, ?_, ?_, ?_, ?_, ?_, ?_, ?_, ?_⟩ <;>
    simp [clear_all_workflows, get_workflow_status, approve_workflow, reject_workflow,
      approve_schema, reject_schema, receive_schema_callback, submit_final_feedback,
      delete_workflow, List.lookup]

/-! ## C9 -/

/-- **C9**: after `reject` sets `human_approval = Rejected` and
`next_step = "research_agent"`, the status endpoint reports `"failed"`,
and it keeps doing so for any state whose approval is still Rejected
while `next_step` is neither a waiting nor a terminal marker — the
derivation maps rejection to `"failed"` before defaulting to
`"running"`. -/
theorem c9_rejected_reports_failed :
    (∀ (store : Store) (workflow_id : String) (state : AgentState),
      store.lookup workflow_id = some state →
      ∃ st', (reject_workflow store workflow_id).2.lookup workflow_id = some st' ∧
        st'.human_approval = .rejected ∧ st'.next_step = "research_agent" ∧
        (get_workflow_status (reject_workflow store workflow_id).2 workflow_id).2.1 =
          some { workflow_id := workflow_id, status := "failed",
                 current_step := "research_agent", user_goal := st'.user_goal,
                 schema := st'.dataset_info.schema, research_data := st'.research_data }) ∧
    (∀ s : AgentState, s.human_approval = .rejected →
      s.next_step ≠ "waiting_human_approval" → s.next_step ≠ "waiting_schema_approval" →
      s.next_step ≠ "waiting_final_approval" → s.next_step ≠ "completed" →
      s.next_step ≠ "failed" → s.next_step ≠ "aborted" →
      deriveStatus s = "failed") := by
  constructor
  · intro store workflow_id state h
    have hl : (reject_workflow store workflow_id).2.lookup workflow_id =
        some (rejectedState state) := by
      simp [reject_workflow, h, storeSet_lookup_self]
    have ha : (rejectedState state).human_approval = .rejected := rfl
    have hn : (rejectedState state).next_step = "research_agent" := rfl
    have hds : deriveStatus (rejectedState state) = "failed" := by
      apply deriveStatus_rejected _ ha <;> rw [hn] <;> decide
    refine ⟨rejectedState state, hl, ?_, ?_, ?_⟩
    · exact ha
    · exact hn
    · simp [get_workflow_status, hl, hds, hn]
  · intro s h1 h2 h3 h4 h5 h6 h7
    exact deriveStatus_rejected s h1 h2 h3 h4 h5 h6 h7

/-- Witness for `c9_rejected_reports_failed` at the concrete store. -/
theorem c9_witness :
    ∃ st', (reject_workflow c1Store "wf-c1").2.lookup "wf-c1" = some st' ∧
      st'.human_approval = .rejected ∧ st'.next_step = "research_agent" ∧
      (get_workflow_status (reject_workflow c1Store "wf-c1").2 "wf-c1").2.1 =
        some { workflow_id := "wf-c1", status := "failed",
               current_step := "research_agent", user_goal := st'.user_goal,
               schema := st'.dataset_info.schema, research_data := st'.research_data } := by
  exact (c9_rejected_reports_failed.1 c1Store "wf-c1" wfAtFinal rfl)

end AutoDS
